import Mathlib

/-!
Shallow embedding of the MPP `net` component: the generic `mpp::Component`
transport/belief layer (Component.hpp, embedded in MPPContinuation.md) and the
concrete `Net` component (Net.hpp = src/unnamed/part_000, Net.cpp).

External libraries (libnet, pcap, the socket layer) are modelled by an
explicit environment record `Env` whose fields give the outcome of each
external call; machine integers are `Nat` with explicit `% 2^w` where the
C++ type is a fixed-width unsigned integer (unsigned int is taken as 32 bits).
Snapshots (nlohmann json objects) are association lists of scalar values;
values of the wrong type for a register assignment are ignored (in the C++
such an assignment would throw out of `apply_snapshot`; no claim exercises
that path).
-/

/-- A scalar JSON value, the only shapes the NET snapshot schema uses. -/
inductive JVal where
  | jbool : Bool → JVal
  | jint  : Int → JVal
  | jstr  : String → JVal
deriving DecidableEq, Repr

/-- A flat JSON object (nlohmann `ordered_json`): an ordered key/value list. -/
def Snapshot : Type := List (String × JVal)

instance : DecidableEq Snapshot := by
  unfold Snapshot
  infer_instance

/-- `j.contains(k)`. -/
def Snapshot.hasKey (j : Snapshot) (k : String) : Bool :=
  j.any (fun p => p.1 == k)

/-- First value stored under key `k`, if any. -/
def Snapshot.getVal (j : Snapshot) (k : String) : Option JVal :=
  (j.find? (fun p => p.1 == k)).map (fun p => p.2)

/-- `j.value(k, false)`: the stored boolean, `false` when the key is absent. -/
def Snapshot.valueBool (j : Snapshot) (k : String) : Bool :=
  match j.getVal k with
  | some (JVal.jbool b) => b
  | _ => false

/-- `if (j.contains(k)) field = j[k];` for a string register. -/
def Snapshot.updStr (j : Snapshot) (k : String) (old : String) : String :=
  match j.getVal k with
  | some (JVal.jstr s) => s
  | _ => old

/-- `if (j.contains(k)) field = j[k];` for a bool register. -/
def Snapshot.updBool (j : Snapshot) (k : String) (old : Bool) : Bool :=
  match j.getVal k with
  | some (JVal.jbool b) => b
  | _ => old

/-- `if (j.contains(k)) field = j[k];` for an `int` register. -/
def Snapshot.updInt (j : Snapshot) (k : String) (old : Int) : Int :=
  match j.getVal k with
  | some (JVal.jint i) => i
  | _ => old

/-- `if (j.contains(k)) field = j[k];` for an unsigned register of width
`w` bits: assignment wraps modulo `2 ^ w`. -/
def Snapshot.updNat (w : Nat) (j : Snapshot) (k : String) (old : Nat) : Nat :=
  match j.getVal k with
  | some (JVal.jint i) => (i.emod (2 ^ w : Int)).toNat
  | _ => old

/-!
## MAC address parsing (`parse_mac`, Net.hpp)

`sscanf(s, "%x:%x:%x:%x:%x:%x", ...)`: each `%x` skips whitespace, accepts an
optional sign and an optional `0x`/`0X` prefix, then one or more hex digits,
converting as a 32-bit `unsigned int`; each literal `:` must match exactly;
the call succeeds when all six conversions are assigned (trailing input is
ignored).  Each converted value is then truncated to `uint8_t`.
-/

/-- Value of a hexadecimal digit character, `none` for a non-digit. -/
def hexDigitVal (c : Char) : Option Nat :=
  if '0' ≤ c ∧ c ≤ '9' then some (c.toNat - '0'.toNat)
  else if 'a' ≤ c ∧ c ≤ 'f' then some (c.toNat - 'a'.toNat + 10)
  else if 'A' ≤ c ∧ c ≤ 'F' then some (c.toNat - 'A'.toNat + 10)
  else none

def isHexDigitCh (c : Char) : Bool := (hexDigitVal c).isSome

/-- Accumulate a hex-digit run into a value (before the 32-bit wrap). -/
def hexAccum (ds : List Char) : Nat :=
  ds.foldl (fun a c => a * 16 + ((hexDigitVal c).getD 0)) 0

/-- Drop a leading `0x` / `0X` when a hex digit follows it. -/
def stripHex0x (cs : List Char) : List Char :=
  match cs with
  | '0' :: c :: t =>
    if (c == 'x' || c == 'X') &&
       (match t with | d :: _ => isHexDigitCh d | [] => false) then t
    else cs
  | _ => cs

/-- One `%x` conversion: the converted `unsigned int` value and the rest of
the input, or `none` on a matching failure. -/
def scanHex (cs : List Char) : Option (Nat × List Char) :=
  let cs := cs.dropWhile (fun c => c.isWhitespace)
  let p : Bool × List Char :=
    match cs with
    | '-' :: t => (true, t)
    | '+' :: t => (false, t)
    | _ => (false, cs)
  let neg := p.1
  let cs := stripHex0x p.2
  let ds := cs.takeWhile isHexDigitCh
  if ds = [] then none
  else
    let v := hexAccum ds % 4294967296
    some (if neg then (4294967296 - v) % 4294967296 else v, cs.drop ds.length)

/-- A literal `:` in the scanf format: match exactly one colon. -/
def expectColon (cs : List Char) : Option (List Char) :=
  match cs with
  | ':' :: t => some t
  | _ => none

/-- `parse_mac` (Net.hpp): six colon-separated `%x` conversions, each result
truncated to a byte; `none` exactly when `sscanf` returns fewer than 6. -/
def parse_mac (s : String) : Option (List Nat) := do
  let (b0, r) ← scanHex s.toList
  let r ← expectColon r
  let (b1, r) ← scanHex r
  let r ← expectColon r
  let (b2, r) ← scanHex r
  let r ← expectColon r
  let (b3, r) ← scanHex r
  let r ← expectColon r
  let (b4, r) ← scanHex r
  let r ← expectColon r
  let (b5, _) ← scanHex r
  return [b0 % 256, b1 % 256, b2 % 256, b3 % 256, b4 % 256, b5 % 256]

/-!
## Registers and state
-/

/-- `NetRegisters` (Net.hpp) with the C++ default member initializers.
The trigger booleans (`libnet_create` … `rx_fire`, `pcap_set_filter`) are
present in the C++ struct but never assigned by `apply_snapshot`, which reads
the trigger flags straight from the incoming document. -/
structure NetRegisters where
  sba : Int := 0
  libnet_create : Bool := false
  libnet_destroy : Bool := false
  pcap_create : Bool := false
  pcap_destroy : Bool := false
  tx_fire : Bool := false
  rx_fire : Bool := false
  libnet_device : String := "eno1"
  pcap_device : String := "eno1"
  snaplen : Int := 65535
  promisc : Bool := true
  timeout_ms : Int := 10
  pcap_filter : String := ""
  pcap_set_filter : Bool := false
  eth_enabled : Bool := false
  eth_src_mac : String := ""
  eth_dst_mac : String := ""
  eth_type : Nat := 2048
  ip4_enabled : Bool := false
  ip4_src : String := ""
  ip4_dst : String := ""
  ip4_ttl : Nat := 64
  icmp4_enabled : Bool := false
  icmp4_type : Nat := 8
  icmp4_code : Nat := 0
  icmp4_id : Nat := 4660
  icmp4_seq : Nat := 0
  icmp4_payload : String := ""
  rx_done : Bool := false
  rx_len : Nat := 0
  rx_caplen : Nat := 0
  tx_done : Bool := false
  last_error : String := ""
deriving DecidableEq, Repr

/-- `mpp::Belief` (Belief.hpp); `context` is an opaque JSON object. -/
structure Belief where
  component : String
  subject : String
  polarity : Bool
  context : List (String × JVal)
deriving DecidableEq, Repr

/-- The full state of one `Net` instance: its registers, the two external
handles (`libnet_`, `pcap_`, each `none` = null pointer), the filter
installed on the live capture handle, and the inherited `mpp::Component`
state (belief ledger, remembered reply sender). -/
structure NetState where
  regs : NetRegisters
  libnet : Option Nat
  pcap : Option Nat
  pcap_filter_installed : Option String
  committed : List Belief
  has_sender : Bool
  last_sender : Nat
deriving DecidableEq, Repr

/-- `Net::Net(sba)`: default registers with `regs_.sba = sba`, null handles,
empty ledger, no remembered sender (`last_sender_` zero-initialized). -/
def initNet (sba : Int) : NetState :=
  { regs := { sba := sba }
    libnet := none
    pcap := none
    pcap_filter_installed := none
    committed := []
    has_sender := false
    last_sender := 0 }

/-- Outcomes of the external libnet/pcap/socket calls one dispatch step may
perform. -/
structure Env where
  /-- `libnet_init`: `some h` on success, `none` on failure. -/
  libnet_init : Option Nat
  /-- Error text libnet leaves in `errbuf` when `libnet_init` fails. -/
  libnet_errbuf : String
  /-- `pcap_open_live`: `some h` on success, `none` on failure. -/
  pcap_open : Option Nat
  /-- Error text pcap leaves in `errbuf` when `pcap_open_live` fails. -/
  pcap_errbuf : String
  /-- Whether `pcap_compile` returns 0. -/
  pcap_compile_ok : Bool
  /-- `pcap_next_ex`: `some (len, caplen)` when it returns 1 with a frame,
  `none` when it returns 0 or a negative code. -/
  pcap_frame : Option (Nat × Nat)
  /-- `libnet_name2addr4` on `ip4_src` (`0` fails the code's validity test). -/
  name2addr_src : Nat
  /-- `libnet_name2addr4` on `ip4_dst`. -/
  name2addr_dst : Nat
  /-- Whether `libnet_write` returns a non-negative count. -/
  libnet_write_ok : Bool
  /-- `libnet_geterror` text when `libnet_write` fails. -/
  libnet_write_err : String
  /-- Whether the `sendto` inside `reply_json` sends the whole payload. -/
  reply_send_ok : Bool
deriving DecidableEq, Repr

/-- The link-layer frame `do_tx` hands to `libnet_write`: the ethernet, IPv4
and ICMP echo headers it builds plus the payload. -/
structure Frame where
  eth_dst : List Nat
  eth_src : List Nat
  eth_type : Nat
  ip_ttl : Nat
  ip_src : Nat
  ip_dst : Nat
  icmp_type : Nat
  icmp_code : Nat
  icmp_id : Nat
  icmp_seq : Nat
  payload : String
deriving DecidableEq, Repr

/-- Everything a dispatch step emits to the outside world, in order. -/
inductive Output where
  /-- A belief envelope sent to the sink port (`send_json(msg, BLS_PORT)`
  inside `Component::commit`). -/
  | sink (b : Belief)
  /-- A status document sent to the bus port (`send_bus`). -/
  | bus (doc : List (String × JVal))
  /-- A reply to the remembered private-channel sender (`reply_json`). -/
  | reply (sender : Nat) (doc : List (String × JVal))
  /-- A frame actually written to the wire (`libnet_write` succeeding). -/
  | wire (f : Frame)
deriving DecidableEq, Repr

/-!
## `mpp::Component` belief ledger and reply path (Component.hpp)
-/

/-- `full_subject.rfind(prefix, 0) == 0`: the subject starts with the
prefix (checked on the character lists so that it evaluates by `decide`). -/
def strStarts (pre s : String) : Bool :=
  pre.toList.isPrefixOf s.toList

/-- `Component::commit(subject, polarity, context)`: rejects a subject not
prefixed by `"<component_name>."` and a `(subject, polarity)` pair already in
`committed_`; otherwise appends the belief and sends one envelope to the
sink.  Returns the new ledger and the emitted outputs. -/
def commit (name : String) (committed : List Belief)
    (subject : String) (polarity : Bool)
    (context : List (String × JVal) := []) : List Belief × List Output :=
  if ¬ strStarts (name ++ ".") subject then (committed, [])
  else if committed.any
      (fun b => b.subject == subject && b.polarity == polarity) then
    (committed, [])
  else
    let b : Belief := ⟨name, subject, polarity, context⟩
    (committed ++ [b], [Output.sink b])

/-- `Component::reply_json(j)`: `false` and no send when no sender has been
remembered; otherwise one datagram to `last_sender_`, `true` exactly when
`sendto` wrote the whole payload.  The component state is unchanged. -/
def reply_json (doc : List (String × JVal)) (env : Env) (st : NetState) :
    Bool × List Output :=
  if st.has_sender then (env.reply_send_ok, [Output.reply st.last_sender doc])
  else (false, [])

/-!
## `Net` operations (Net.cpp)
-/

/-- `Net::set_error(msg)`: `regs_.last_error = msg`. -/
def set_error (msg : String) (st : NetState) : NetState :=
  { st with regs := { st.regs with last_error := msg } }

/-- `Net::serialize_registers()`. -/
def serialize_registers (st : NetState) : List (String × JVal) :=
  [ ("component", JVal.jstr "NET")
  , ("sba", JVal.jint st.regs.sba)
  , ("libnet_device", JVal.jstr st.regs.libnet_device)
  , ("pcap_device", JVal.jstr st.regs.pcap_device)
  , ("libnet_live", JVal.jbool st.libnet.isSome)
  , ("pcap_live", JVal.jbool st.pcap.isSome)
  , ("tx_done", JVal.jbool st.regs.tx_done)
  , ("rx_done", JVal.jbool st.regs.rx_done)
  , ("rx_len", JVal.jint (st.regs.rx_len : Int))
  , ("rx_caplen", JVal.jint (st.regs.rx_caplen : Int))
  , ("last_error", JVal.jstr st.regs.last_error) ]

/-- `Net::do_libnet_create`: no-op when the handle is live; otherwise
`libnet_init` either yields a live handle or records its error text. -/
def do_libnet_create (env : Env) (st : NetState) : NetState :=
  if st.libnet.isSome then st
  else
    match env.libnet_init with
    | some h => { st with libnet := some h }
    | none => set_error env.libnet_errbuf st

/-- `Net::do_libnet_destroy`: no-op when the handle is absent; otherwise
destroys it and nulls the pointer. -/
def do_libnet_destroy (st : NetState) : NetState :=
  if st.libnet.isNone then st
  else { st with libnet := none }

/-- `Net::do_pcap_create`: no-op when live; otherwise `pcap_open_live`
either yields a fresh live handle (with no filter installed) or records
its error text. -/
def do_pcap_create (env : Env) (st : NetState) : NetState :=
  if st.pcap.isSome then st
  else
    match env.pcap_open with
    | some h => { st with pcap := some h, pcap_filter_installed := none }
    | none => set_error env.pcap_errbuf st

/-- `Net::do_pcap_destroy`: no-op when absent; otherwise `pcap_close`
(releasing the handle together with its installed filter). -/
def do_pcap_destroy (st : NetState) : NetState :=
  if st.pcap.isNone then st
  else { st with pcap := none, pcap_filter_installed := none }

/-- `Net::do_tx` (ICMP echo transmit).  Early-outs: null libnet handle; any
framing layer disabled; MAC parse failure; a zero resolved address.  The
packet build post-increments `icmp4_seq` (uint16).  `libnet_write` failure
records the driver error; success writes the frame, sets `tx_done` and
commits the `NET.tx_done` belief. -/
def do_tx (env : Env) (st : NetState) : NetState × List Output :=
  if st.libnet.isNone then (st, [])
  else if ¬ (st.regs.eth_enabled ∧ st.regs.ip4_enabled ∧
             st.regs.icmp4_enabled) then (st, [])
  else
    match parse_mac st.regs.eth_src_mac, parse_mac st.regs.eth_dst_mac with
    | some eth_src, some eth_dst =>
      let src_ip := env.name2addr_src
      let dst_ip := env.name2addr_dst
      if src_ip = 0 ∨ dst_ip = 0 then (set_error "invalid IP address" st, [])
      else
        let f : Frame :=
          { eth_dst := eth_dst
            eth_src := eth_src
            eth_type := st.regs.eth_type
            ip_ttl := st.regs.ip4_ttl
            ip_src := src_ip
            ip_dst := dst_ip
            icmp_type := st.regs.icmp4_type
            icmp_code := st.regs.icmp4_code
            icmp_id := st.regs.icmp4_id
            icmp_seq := st.regs.icmp4_seq
            payload := st.regs.icmp4_payload }
        let st :=
          { st with regs :=
              { st.regs with icmp4_seq := (st.regs.icmp4_seq + 1) % 65536 } }
        if ¬ env.libnet_write_ok then (set_error env.libnet_write_err st, [])
        else
          let st := { st with regs := { st.regs with tx_done := true } }
          let co := commit "NET" st.committed "NET.tx_done" true
          ({ st with committed := co.1 }, Output.wire f :: co.2)
    | _, _ => (set_error "invalid MAC address format" st, [])

/-- `Net::do_rx` (one pcap sample).  Early-outs: null pcap handle; no frame
pending.  On a frame: records the wire and captured lengths, sets `rx_done`
and commits the `NET.rx_done` belief with the two lengths as context.  The
status document the source then builds into a local `json j` is never sent
anywhere, so the step emits nothing beyond the commit. -/
def do_rx (env : Env) (st : NetState) : NetState × List Output :=
  if st.pcap.isNone then (st, [])
  else
    match env.pcap_frame with
    | none => (st, [])
    | some (len, caplen) =>
      let st :=
        { st with regs :=
            { st.regs with
                rx_done := true
                rx_len := len % 4294967296
                rx_caplen := caplen % 4294967296 } }
      let co := commit "NET" st.committed "NET.rx_done" true
        [ ("rx_len", JVal.jint (st.regs.rx_len : Int))
        , ("rx_caplen", JVal.jint (st.regs.rx_caplen : Int)) ]
      ({ st with committed := co.1 }, co.2)

/-- The configuration section of `Net::apply_snapshot`: each recognized key
present in the patch overwrites its register; absent keys change nothing. -/
def config_phase (j : Snapshot) (r : NetRegisters) : NetRegisters :=
  { r with
      libnet_device := j.updStr "libnet_device" r.libnet_device
      pcap_device := j.updStr "pcap_device" r.pcap_device
      snaplen := j.updInt "snaplen" r.snaplen
      promisc := j.updBool "promisc" r.promisc
      timeout_ms := j.updInt "timeout_ms" r.timeout_ms
      pcap_filter := j.updStr "pcap_filter" r.pcap_filter
      eth_enabled := j.updBool "eth_enabled" r.eth_enabled
      eth_src_mac := j.updStr "eth_src_mac" r.eth_src_mac
      eth_dst_mac := j.updStr "eth_dst_mac" r.eth_dst_mac
      eth_type := j.updNat 16 "eth_type" r.eth_type
      ip4_enabled := j.updBool "ip4_enabled" r.ip4_enabled
      ip4_src := j.updStr "ip4_src" r.ip4_src
      ip4_dst := j.updStr "ip4_dst" r.ip4_dst
      ip4_ttl := j.updNat 8 "ip4_ttl" r.ip4_ttl
      icmp4_enabled := j.updBool "icmp4_enabled" r.icmp4_enabled
      icmp4_type := j.updNat 8 "icmp4_type" r.icmp4_type
      icmp4_code := j.updNat 8 "icmp4_code" r.icmp4_code
      icmp4_id := j.updNat 16 "icmp4_id" r.icmp4_id
      icmp4_seq := j.updNat 16 "icmp4_seq" r.icmp4_seq
      icmp4_payload := j.updStr "icmp4_payload" r.icmp4_payload }

/-- The lifecycle section of `Net::apply_snapshot`: the four create/destroy
triggers, in source order. -/
def lifecycle_phase (j : Snapshot) (env : Env) (st : NetState) : NetState :=
  let st := if j.valueBool "libnet_create" then do_libnet_create env st else st
  let st := if j.valueBool "libnet_destroy" then do_libnet_destroy st else st
  let st := if j.valueBool "pcap_create" then do_pcap_create env st else st
  if j.valueBool "pcap_destroy" then do_pcap_destroy st else st

/-- The `pcap_set_filter` section: only with the trigger set, a live handle
and a non-empty filter text, and only when `pcap_compile` succeeds, is the
filter installed on the handle. -/
def filter_phase (j : Snapshot) (env : Env) (st : NetState) : NetState :=
  if j.valueBool "pcap_set_filter" ∧ st.pcap.isSome then
    if st.regs.pcap_filter ≠ "" then
      if env.pcap_compile_ok then
        { st with pcap_filter_installed := some st.regs.pcap_filter }
      else st
    else st
  else st

/-- The actions section of `Net::apply_snapshot`: `tx_fire` and `rx_fire`
clear their done flag and run the action; `tick` runs `do_rx` directly. -/
def actions_phase (j : Snapshot) (env : Env) (st : NetState) :
    NetState × List Output :=
  let p1 :=
    if j.valueBool "tx_fire" then
      do_tx env { st with regs := { st.regs with tx_done := false } }
    else (st, [])
  let p2 :=
    if j.valueBool "rx_fire" then
      do_rx env { p1.1 with regs := { p1.1.regs with rx_done := false } }
    else (p1.1, [])
  let p3 := if j.valueBool "tick" then do_rx env p2.1 else (p2.1, [])
  (p3.1, p1.2 ++ p2.2 ++ p3.2)

/-- `Net::apply_snapshot(j)`: configuration, lifecycle, filter, `read`
reply, then the fire actions, in the source's order. -/
def apply_snapshot (j : Snapshot) (env : Env) (st : NetState) :
    NetState × List Output :=
  let st := { st with regs := config_phase j st.regs }
  let st := lifecycle_phase j env st
  let st := filter_phase j env st
  let outR :=
    if j.valueBool "read" then (reply_json (serialize_registers st) env st).2
    else []
  let pa := actions_phase j env st
  (pa.1, outR ++ pa.2)

/-- `Net::on_message`: empty body. -/
def on_message (_j : Snapshot) (st : NetState) : NetState := st

/-- `Component::poll_socket(fd, allow_reply)` for one receive attempt.
`dgram` is `none` when `recvfrom` returns nothing, otherwise the sender and
the parse result of the payload (`none` = `json::parse` threw).  The sender
is remembered (on the reply-capable endpoint) before parsing; a parse
failure is swallowed by `catch (...)` and the message dropped; otherwise
`apply_snapshot` then `on_message` run. -/
def poll_socket (allow_reply : Bool) (dgram : Option (Nat × Option Snapshot))
    (env : Env) (st : NetState) : NetState × List Output :=
  match dgram with
  | none => (st, [])
  | some (sender, payload) =>
    let st :=
      if allow_reply then { st with last_sender := sender, has_sender := true }
      else st
    match payload with
    | none => (st, [])
    | some j =>
      let pa := apply_snapshot j env st
      (on_message j pa.1, pa.2)

/-!
## Component construction (Component.hpp constructor)
-/

/-- The observable outcome of the `mpp::Component` constructor: whether the
run loop will execute (`running_`) and which endpoints were bound. -/
structure InitState where
  running : Bool
  udp_ok : Bool
  bus_ok : Bool
deriving DecidableEq, Repr

/-- The `Component` constructor: `running_ = true`, then `setup_udp()` (a
private-endpoint bind failure clears `running_`), then, when listening to
the bus, `setup_bus()` (a bus bind failure also clears `running_`).
`Net` passes `listen_bus = true`. -/
def component_construct (listen_bus udp_bind_ok bus_bind_ok : Bool) :
    InitState :=
  let s : InitState := { running := true, udp_ok := false, bus_ok := false }
  let s :=
    if udp_bind_ok then { s with udp_ok := true }
    else { s with running := false }
  if listen_bus then
    if bus_bind_ok then { s with bus_ok := true }
    else { s with running := false }
  else s

/-- Count the sink envelopes carrying a given `(subject, polarity)`. -/
def sinkCount (outs : List Output) (subj : String) (pol : Bool) : Nat :=
  (outs.filter (fun o =>
    match o with
    | Output.sink b => b.subject == subj && b.polarity == pol
    | _ => false)).length

/-- Whether an output list contains any bus (status-envelope) send. -/
def hasBusOutput (outs : List Output) : Bool :=
  outs.any (fun o => match o with | Output.bus _ => true | _ => false)

/-- Whether an output list contains any wire (frame) transmission. -/
def hasWireOutput (outs : List Output) : Bool :=
  outs.any (fun o => match o with | Output.wire _ => true | _ => false)

/-!
## Concrete fixtures used by witnesses and counterexamples
-/

/-- An environment where every external call succeeds and a frame of wire
length 100 / captured length 64 is pending. -/
def envT : Env :=
  { libnet_init := some 1
    libnet_errbuf := "libnet: init failed"
    pcap_open := some 2
    pcap_errbuf := "pcap: open failed"
    pcap_compile_ok := true
    pcap_frame := some (100, 64)
    name2addr_src := 16909060
    name2addr_dst := 84281096
    libnet_write_ok := true
    libnet_write_err := "libnet: write failed"
    reply_send_ok := true }

/-- A freshly constructed instance on address 5000. -/
def stBase : NetState := initNet 5000

/-- A state ready for a successful transmit: live transmit handle, all three
framing layers enabled, parseable addresses. -/
def stTxReady : NetState :=
  { stBase with
      libnet := some 1
      regs := { stBase.regs with
                  eth_enabled := true
                  ip4_enabled := true
                  icmp4_enabled := true
                  eth_src_mac := "aa:bb:cc:dd:ee:ff"
                  eth_dst_mac := "11:22:33:44:55:66"
                  ip4_src := "1.2.3.4"
                  ip4_dst := "5.6.7.8" } }

/-- `stTxReady` with an unparseable destination hardware address. -/
def stBadMac : NetState :=
  { stTxReady with
      regs := { stTxReady.regs with eth_dst_mac := "zz:zz:zz:zz:zz:zz" } }

/-- A state with a live capture handle. -/
def stRxReady : NetState := { stBase with pcap := some 2 }

/-- A state with a stale `rx_done = true` and no live capture handle. -/
def stRxStale : NetState :=
  { stBase with regs := { stBase.regs with rx_done := true } }

/-- A state whose error register already holds a diagnostic. -/
def stErr : NetState :=
  { stBase with regs := { stBase.regs with last_error := "boom" } }

/-- A state that has remembered private-channel sender 42. -/
def stSender : NetState :=
  { stBase with has_sender := true, last_sender := 42 }

/-- A state with both driver handles live. -/
def stLive : NetState := { stBase with libnet := some 1, pcap := some 2 }

/-!
## Helper lemmas
-/

theorem do_tx_has_sender (env : Env) (st : NetState) :
    (do_tx env st).1.has_sender = st.has_sender := by
  unfold do_tx set_error
  dsimp only
  repeat' split
  all_goals rfl

theorem do_tx_last_sender (env : Env) (st : NetState) :
    (do_tx env st).1.last_sender = st.last_sender := by
  unfold do_tx set_error
  dsimp only
  repeat' split
  all_goals rfl

theorem do_rx_has_sender (env : Env) (st : NetState) :
    (do_rx env st).1.has_sender = st.has_sender := by
  unfold do_rx
  dsimp only
  repeat' split
  all_goals rfl

theorem do_rx_last_sender (env : Env) (st : NetState) :
    (do_rx env st).1.last_sender = st.last_sender := by
  unfold do_rx
  dsimp only
  repeat' split
  all_goals rfl

theorem do_libnet_create_has_sender (env : Env) (st : NetState) :
    (do_libnet_create env st).has_sender = st.has_sender := by
  unfold do_libnet_create set_error
  repeat' split
  all_goals rfl

theorem do_libnet_create_last_sender (env : Env) (st : NetState) :
    (do_libnet_create env st).last_sender = st.last_sender := by
  unfold do_libnet_create set_error
  repeat' split
  all_goals rfl

theorem do_libnet_destroy_has_sender (st : NetState) :
    (do_libnet_destroy st).has_sender = st.has_sender := by
  unfold do_libnet_destroy
  repeat' split
  all_goals rfl

theorem do_libnet_destroy_last_sender (st : NetState) :
    (do_libnet_destroy st).last_sender = st.last_sender := by
  unfold do_libnet_destroy
  repeat' split
  all_goals rfl

theorem do_pcap_create_has_sender (env : Env) (st : NetState) :
    (do_pcap_create env st).has_sender = st.has_sender := by
  unfold do_pcap_create set_error
  repeat' split
  all_goals rfl

theorem do_pcap_create_last_sender (env : Env) (st : NetState) :
    (do_pcap_create env st).last_sender = st.last_sender := by
  unfold do_pcap_create set_error
  repeat' split
  all_goals rfl

theorem do_pcap_destroy_has_sender (st : NetState) :
    (do_pcap_destroy st).has_sender = st.has_sender := by
  unfold do_pcap_destroy
  repeat' split
  all_goals rfl

theorem do_pcap_destroy_last_sender (st : NetState) :
    (do_pcap_destroy st).last_sender = st.last_sender := by
  unfold do_pcap_destroy
  repeat' split
  all_goals rfl

theorem lifecycle_has_sender (j : Snapshot) (env : Env) (st : NetState) :
    (lifecycle_phase j env st).has_sender = st.has_sender := by
  unfold lifecycle_phase
  by_cases h1 : j.valueBool "libnet_create" <;>
    by_cases h2 : j.valueBool "libnet_destroy" <;>
      by_cases h3 : j.valueBool "pcap_create" <;>
        by_cases h4 : j.valueBool "pcap_destroy" <;>
          simp [h1, h2, h3, h4, do_libnet_create_has_sender,
            do_libnet_destroy_has_sender, do_pcap_create_has_sender,
            do_pcap_destroy_has_sender]

theorem lifecycle_last_sender (j : Snapshot) (env : Env) (st : NetState) :
    (lifecycle_phase j env st).last_sender = st.last_sender := by
  unfold lifecycle_phase
  by_cases h1 : j.valueBool "libnet_create" <;>
    by_cases h2 : j.valueBool "libnet_destroy" <;>
      by_cases h3 : j.valueBool "pcap_create" <;>
        by_cases h4 : j.valueBool "pcap_destroy" <;>
          simp [h1, h2, h3, h4, do_libnet_create_last_sender,
            do_libnet_destroy_last_sender, do_pcap_create_last_sender,
            do_pcap_destroy_last_sender]

theorem filter_has_sender (j : Snapshot) (env : Env) (st : NetState) :
    (filter_phase j env st).has_sender = st.has_sender := by
  unfold filter_phase
  repeat' split
  all_goals rfl

theorem filter_last_sender (j : Snapshot) (env : Env) (st : NetState) :
    (filter_phase j env st).last_sender = st.last_sender := by
  unfold filter_phase
  repeat' split
  all_goals rfl

theorem actions_has_sender (j : Snapshot) (env : Env) (st : NetState) :
    (actions_phase j env st).1.has_sender = st.has_sender := by
  unfold actions_phase
  by_cases h1 : j.valueBool "tx_fire" <;>
    by_cases h2 : j.valueBool "rx_fire" <;>
      by_cases h3 : j.valueBool "tick" <;>
        simp [h1, h2, h3, do_tx_has_sender, do_rx_has_sender]

theorem actions_last_sender (j : Snapshot) (env : Env) (st : NetState) :
    (actions_phase j env st).1.last_sender = st.last_sender := by
  unfold actions_phase
  by_cases h1 : j.valueBool "tx_fire" <;>
    by_cases h2 : j.valueBool "rx_fire" <;>
      by_cases h3 : j.valueBool "tick" <;>
        simp [h1, h2, h3, do_tx_last_sender, do_rx_last_sender]

theorem apply_snapshot_has_sender (j : Snapshot) (env : Env) (st : NetState) :
    (apply_snapshot j env st).1.has_sender = st.has_sender := by
  unfold apply_snapshot
  simp [actions_has_sender, filter_has_sender, lifecycle_has_sender]

theorem apply_snapshot_last_sender (j : Snapshot) (env : Env) (st : NetState) :
    (apply_snapshot j env st).1.last_sender = st.last_sender := by
  unfold apply_snapshot
  simp [actions_last_sender, filter_last_sender, lifecycle_last_sender]

/-- The strings one dispatch step can leave in `last_error`: its previous
value, one of the two validation messages of `do_tx`, or an error text
obtained from the drivers. -/
def errReach (env : Env) (old e : String) : Prop :=
  e = old ∨ e = "invalid MAC address format" ∨ e = "invalid IP address" ∨
  e = env.libnet_write_err ∨ e = env.libnet_errbuf ∨ e = env.pcap_errbuf

theorem errReach_refl (env : Env) (old : String) : errReach env old old :=
  Or.inl rfl

theorem errReach_trans {env : Env} {old mid e : String}
    (h2 : errReach env old mid) (h1 : errReach env mid e) :
    errReach env old e := by
  rcases h1 with rfl | h
  · exact h2
  · exact Or.inr h

theorem errReach_do_libnet_create (env : Env) (st : NetState) :
    errReach env st.regs.last_error (do_libnet_create env st).regs.last_error := by
  unfold do_libnet_create set_error
  repeat' split
  all_goals simp [errReach]

theorem errReach_do_libnet_destroy (env : Env) (st : NetState) :
    errReach env st.regs.last_error (do_libnet_destroy st).regs.last_error := by
  unfold do_libnet_destroy
  repeat' split
  all_goals simp [errReach]

theorem errReach_do_pcap_create (env : Env) (st : NetState) :
    errReach env st.regs.last_error (do_pcap_create env st).regs.last_error := by
  unfold do_pcap_create set_error
  repeat' split
  all_goals simp [errReach]

theorem errReach_do_pcap_destroy (env : Env) (st : NetState) :
    errReach env st.regs.last_error (do_pcap_destroy st).regs.last_error := by
  unfold do_pcap_destroy
  repeat' split
  all_goals simp [errReach]

theorem errReach_do_tx (env : Env) (st : NetState) :
    errReach env st.regs.last_error (do_tx env st).1.regs.last_error := by
  unfold do_tx set_error
  dsimp only
  repeat' split
  all_goals simp [errReach]

theorem errReach_do_rx (env : Env) (st : NetState) :
    errReach env st.regs.last_error (do_rx env st).1.regs.last_error := by
  unfold do_rx
  dsimp only
  repeat' split
  all_goals simp [errReach]

theorem config_last_error (j : Snapshot) (r : NetRegisters) :
    (config_phase j r).last_error = r.last_error := rfl

theorem filter_last_error (j : Snapshot) (env : Env) (st : NetState) :
    (filter_phase j env st).regs.last_error = st.regs.last_error := by
  unfold filter_phase
  repeat' split
  all_goals rfl

theorem errReach_lifecycle (j : Snapshot) (env : Env) (st : NetState) :
    errReach env st.regs.last_error (lifecycle_phase j env st).regs.last_error := by
  have e1 : ∀ s : NetState, errReach env s.regs.last_error
      (if j.valueBool "libnet_create" then do_libnet_create env s
       else s).regs.last_error := by
    intro s
    split
    · exact errReach_do_libnet_create env s
    · exact errReach_refl env _
  have e2 : ∀ s : NetState, errReach env s.regs.last_error
      (if j.valueBool "libnet_destroy" then do_libnet_destroy s
       else s).regs.last_error := by
    intro s
    split
    · exact errReach_do_libnet_destroy env s
    · exact errReach_refl env _
  have e3 : ∀ s : NetState, errReach env s.regs.last_error
      (if j.valueBool "pcap_create" then do_pcap_create env s
       else s).regs.last_error := by
    intro s
    split
    · exact errReach_do_pcap_create env s
    · exact errReach_refl env _
  have e4 : ∀ s : NetState, errReach env s.regs.last_error
      (if j.valueBool "pcap_destroy" then do_pcap_destroy s
       else s).regs.last_error := by
    intro s
    split
    · exact errReach_do_pcap_destroy env s
    · exact errReach_refl env _
  unfold lifecycle_phase
  exact errReach_trans (errReach_trans (errReach_trans (e1 st) (e2 _)) (e3 _))
    (e4 _)

theorem errReach_actions (j : Snapshot) (env : Env) (st : NetState) :
    errReach env st.regs.last_error
      (actions_phase j env st).1.regs.last_error := by
  have e1 : ∀ s : NetState, errReach env s.regs.last_error
      (if j.valueBool "tx_fire" then
        do_tx env { s with regs := { s.regs with tx_done := false } }
       else (s, [])).1.regs.last_error := by
    intro s
    split
    · exact errReach_do_tx env _
    · exact errReach_refl env _
  have e2 : ∀ s : NetState, errReach env s.regs.last_error
      (if j.valueBool "rx_fire" then
        do_rx env { s with regs := { s.regs with rx_done := false } }
       else (s, [])).1.regs.last_error := by
    intro s
    split
    · exact errReach_do_rx env _
    · exact errReach_refl env _
  have e3 : ∀ s : NetState, errReach env s.regs.last_error
      (if j.valueBool "tick" then do_rx env s else (s, [])).1.regs.last_error := by
    intro s
    split
    · exact errReach_do_rx env _
    · exact errReach_refl env _
  unfold actions_phase
  exact errReach_trans (errReach_trans (e1 st) (e2 _)) (e3 _)

theorem errReach_apply_snapshot (j : Snapshot) (env : Env) (st : NetState) :
    errReach env st.regs.last_error
      (apply_snapshot j env st).1.regs.last_error := by
  unfold apply_snapshot
  have h0 : (({ st with regs := config_phase j st.regs } : NetState)).regs.last_error
      = st.regs.last_error := config_last_error j st.regs
  have h1 := errReach_lifecycle j env { st with regs := config_phase j st.regs }
  rw [h0] at h1
  have h2 := errReach_actions j env
    (filter_phase j env
      (lifecycle_phase j env { st with regs := config_phase j st.regs }))
  rw [filter_last_error] at h2
  exact errReach_trans h1 h2

/-!
## Claim C1 — endpoint bind failure at construction
-/

/-- Claim C1, counterexample: with the private-endpoint bind succeeding and
the shared-bus bind failing, the constructor clears the running flag, so the
instance does not run — contradicting the claim that only a private-endpoint
bind failure prevents the instance from starting. -/
theorem claim_C1_counterexample :
    (component_construct true true false).running = false := by decide

/-- Claim C1, amended: for a bus-listening component (Net passes
listen_bus = true), the instance runs exactly when BOTH binds succeed; a
bind failure on either endpoint prevents the instance from starting. -/
theorem claim_C1_amended_bind_fatal (udp_ok bus_ok : Bool) :
    (component_construct true udp_ok bus_ok).running = (udp_ok && bus_ok) := by
  revert udp_ok bus_ok
  decide

/-!
## Claim C2 — JSON parse failure handling
-/

/-- Claim C2, counterexample: a private-endpoint datagram whose payload
fails to parse leaves last_error empty on a fresh instance and emits
nothing — no parse-error hook runs, no diagnostic is recorded. -/
theorem claim_C2_counterexample :
    (poll_socket true (some (7, none)) envT stBase).1.regs.last_error = "" ∧
    (poll_socket true (some (7, none)) envT stBase).2 = [] := by decide

/-- Claim C2, amended: a datagram whose payload fails to parse as JSON is
dropped silently: apply_snapshot and on_message are not called (the state is
unchanged except that the reply-capable endpoint has already remembered the
sender), nothing is emitted, and the process does not abort; the component's
parse-error hooks are never invoked, so last_error is not written. -/
theorem claim_C2_amended_parse_drop (ar : Bool) (sender : Nat) (env : Env)
    (st : NetState) :
    poll_socket ar (some (sender, none)) env st =
      ((if ar then { st with last_sender := sender, has_sender := true }
        else st), []) := rfl

/-!
## Claim C6 — commit ownership enforcement
-/

/-- Claim C6: a commit whose subject does not start with the owning
component's name followed by a dot is rejected atomically — the ledger is
returned unchanged and no envelope is emitted. -/
theorem claim_C6_ownership (name : String) (cs : List Belief)
    (subject : String) (pol : Bool) (ctx : List (String × JVal))
    (h : strStarts (name ++ ".") subject = false) :
    commit name cs subject pol ctx = (cs, []) := by
  unfold commit
  simp [h]

/-- Claim C6, witness: an instance named NET rejects a commit on
OTHER.subject with an empty ledger staying empty and no envelope sent. -/
theorem claim_C6_ownership_witness :
    commit "NET" [] "OTHER.subject" true [] = ([], []) :=
  claim_C6_ownership "NET" [] "OTHER.subject" true [] (by decide)

/-!
## Claim C8 — resource lifecycle algebra
-/

/-- Claim C8: for each driver kind, create on a live handle and destroy on
an absent handle are no-ops (state and handle unchanged); destroy ends with
the handle absent; create on an absent handle yields the handle the driver
open call returns when it succeeds; and repeating create or destroy leaves
the state unchanged. -/
theorem claim_C8_lifecycle_algebra (st : NetState) (env : Env) :
    (st.libnet.isSome = true → do_libnet_create env st = st) ∧
    (st.libnet = none → do_libnet_destroy st = st) ∧
    ((do_libnet_destroy st).libnet = none) ∧
    (st.libnet = none → ∀ h, env.libnet_init = some h →
      (do_libnet_create env st).libnet = some h) ∧
    (do_libnet_create env (do_libnet_create env st) =
      do_libnet_create env st) ∧
    (do_libnet_destroy (do_libnet_destroy st) = do_libnet_destroy st) ∧
    (st.pcap.isSome = true → do_pcap_create env st = st) ∧
    (st.pcap = none → do_pcap_destroy st = st) ∧
    ((do_pcap_destroy st).pcap = none) ∧
    (st.pcap = none → ∀ h, env.pcap_open = some h →
      (do_pcap_create env st).pcap = some h) ∧
    (do_pcap_create env (do_pcap_create env st) = do_pcap_create env st) ∧
    (do_pcap_destroy (do_pcap_destroy st) = do_pcap_destroy st) := by
  refine ⟨?_, ?_, ?_, ?_, ?_, ?_, ?_, ?_, ?_, ?_, ?_, ?_⟩
  · intro h
    simp [do_libnet_create, h]
  · intro h
    simp [do_libnet_destroy, h]
  · cases hl : st.libnet <;> simp [do_libnet_destroy, hl]
  · intro h hh hi
    simp [do_libnet_create, h, hi]
  · cases hl : st.libnet
    · cases hi : env.libnet_init <;>
        simp [do_libnet_create, hl, hi, set_error]
    · simp [do_libnet_create, hl]
  · cases hl : st.libnet <;> simp [do_libnet_destroy, hl]
  · intro h
    simp [do_pcap_create, h]
  · intro h
    simp [do_pcap_destroy, h]
  · cases hp : st.pcap <;> simp [do_pcap_destroy, hp]
  · intro h hh hi
    simp [do_pcap_create, h, hi]
  · cases hp : st.pcap
    · cases hi : env.pcap_open <;>
        simp [do_pcap_create, hp, hi, set_error]
    · simp [do_pcap_create, hp]
  · cases hp : st.pcap <;> simp [do_pcap_destroy, hp]

/-- Claim C8, witness: the algebra instantiated on concrete states — create
on the live pair is a no-op, destroy on the fresh (absent) pair is a no-op,
destroy on the live pair leaves both handles absent, and create on the
fresh pair under envT yields the handles envT supplies. -/
theorem claim_C8_lifecycle_witness :
    (do_libnet_create envT stLive = stLive) ∧
    (do_pcap_create envT stLive = stLive) ∧
    (do_libnet_destroy stBase = stBase) ∧
    (do_pcap_destroy stBase = stBase) ∧
    ((do_libnet_destroy stLive).libnet = none) ∧
    ((do_pcap_destroy stLive).pcap = none) ∧
    ((do_libnet_create envT stBase).libnet = some 1) ∧
    ((do_pcap_create envT stBase).pcap = some 2) :=
  ⟨(claim_C8_lifecycle_algebra stLive envT).1 (by decide),
   (claim_C8_lifecycle_algebra stLive envT).2.2.2.2.2.2.1 (by decide),
   (claim_C8_lifecycle_algebra stBase envT).2.1 (by decide),
   (claim_C8_lifecycle_algebra stBase envT).2.2.2.2.2.2.2.1 (by decide),
   (claim_C8_lifecycle_algebra stLive envT).2.2.1,
   (claim_C8_lifecycle_algebra stLive envT).2.2.2.2.2.2.2.2.1,
   (claim_C8_lifecycle_algebra stBase envT).2.2.2.1 (by decide) 1 (by decide),
   (claim_C8_lifecycle_algebra stBase envT).2.2.2.2.2.2.2.2.2.1 (by decide) 2
     (by decide)⟩

/-!
## Claim C10 — last_error is never cleared
-/

/-- Claim C10: no snapshot dispatch clears last_error.  After any
apply_snapshot (which subsumes create/destroy, tx_fire, rx_fire and tick),
the register either keeps its previous value or holds one of the error
messages the step can write (the two validation texts or a driver error
text); in particular, when the driver error texts are non-empty, a
non-empty last_error stays non-empty. -/
theorem claim_C10_last_error_monotone (j : Snapshot) (env : Env)
    (st : NetState) (h1 : env.libnet_errbuf ≠ "") (h2 : env.pcap_errbuf ≠ "")
    (h3 : env.libnet_write_err ≠ "") (h4 : st.regs.last_error ≠ "") :
    errReach env st.regs.last_error
      (apply_snapshot j env st).1.regs.last_error ∧
    (apply_snapshot j env st).1.regs.last_error ≠ "" := by
  have h := errReach_apply_snapshot j env st
  refine ⟨h, ?_⟩
  rcases h with he | he | he | he | he | he <;> rw [he]
  · exact h4
  · decide
  · decide
  · exact h3
  · exact h1
  · exact h2

/-- Claim C10, witness: on a state already holding the diagnostic "boom", a
tx_fire dispatch under envT leaves last_error within the reachable error
set and non-empty. -/
theorem claim_C10_last_error_witness :
    errReach envT stErr.regs.last_error
      (apply_snapshot [("tx_fire", JVal.jbool true)] envT stErr).1.regs.last_error ∧
    (apply_snapshot [("tx_fire", JVal.jbool true)] envT stErr).1.regs.last_error ≠ "" :=
  claim_C10_last_error_monotone [("tx_fire", JVal.jbool true)] envT stErr
    (by decide) (by decide) (by decide) (by decide)

/-!
## Claim C3 — rx_fire records lengths and commits, but sends no bus envelope
-/

/-- Claim C3, code evaluated at the failing input: an rx_fire dispatch with
the capture driver live and a frame of wire length 100 / captured length 64
pending records both lengths, sets rx_done, emits exactly one belief
envelope to the sink carrying the two lengths as context — but sends NO bus
status envelope: do_rx builds the status document into a local variable and
never passes it to send_bus. -/
theorem claim_C3_rx_no_bus_envelope :
    (apply_snapshot [("rx_fire", JVal.jbool true)] envT stRxReady).1.regs.rx_len
      = 100 ∧
    (apply_snapshot [("rx_fire", JVal.jbool true)] envT stRxReady).1.regs.rx_caplen
      = 64 ∧
    (apply_snapshot [("rx_fire", JVal.jbool true)] envT stRxReady).1.regs.rx_done
      = true ∧
    (apply_snapshot [("rx_fire", JVal.jbool true)] envT stRxReady).2 =
      [Output.sink ⟨"NET", "NET.rx_done", true,
        [("rx_len", JVal.jint 100), ("rx_caplen", JVal.jint 64)]⟩] ∧
    hasBusOutput
      (apply_snapshot [("rx_fire", JVal.jbool true)] envT stRxReady).2 = false := by
  decide

/-!
## Claim C4 — done-flag reset before fire actions
-/

/-- Claim C4, counterexample: a tick dispatch on a state with a stale
rx_done = true and no live capture driver leaves rx_done = true.  Had the
claim held, tick (as an alias of rx_fire) would have reset rx_done to false
immediately before invoking do_rx, and do_rx (a no-op with the driver
absent) would have left it false. -/
theorem claim_C4_counterexample :
    stRxStale.pcap = none ∧ stRxStale.regs.rx_done = true ∧
    (apply_snapshot [("tick", JVal.jbool true)] envT stRxStale).1.regs.rx_done
      = true := by
  decide

/-- Claim C4, amended: apply_snapshot resets tx_done to false immediately
before the tx_fire action body and rx_done to false immediately before the
rx_fire action body (visible when the body no-ops because the driver is
absent), but the tick key invokes the rx body WITHOUT resetting rx_done. -/
theorem claim_C4_amended_done_reset (st : NetState) (env : Env) :
    (st.libnet = none →
      (apply_snapshot [("tx_fire", JVal.jbool true)] env st).1.regs.tx_done
        = false) ∧
    (st.pcap = none →
      (apply_snapshot [("rx_fire", JVal.jbool true)] env st).1.regs.rx_done
        = false) ∧
    (st.pcap = none →
      (apply_snapshot [("tick", JVal.jbool true)] env st).1.regs.rx_done
        = st.regs.rx_done) := by
  refine ⟨?_, ?_, ?_⟩
  · intro h
    simp [apply_snapshot, lifecycle_phase, filter_phase, actions_phase,
      config_phase, Snapshot.valueBool, Snapshot.getVal, Snapshot.updStr,
      Snapshot.updBool, Snapshot.updInt, Snapshot.updNat, do_tx, h]
  · intro h
    simp [apply_snapshot, lifecycle_phase, filter_phase, actions_phase,
      config_phase, Snapshot.valueBool, Snapshot.getVal, Snapshot.updStr,
      Snapshot.updBool, Snapshot.updInt, Snapshot.updNat, do_rx, h]
  · intro h
    simp [apply_snapshot, lifecycle_phase, filter_phase, actions_phase,
      config_phase, Snapshot.valueBool, Snapshot.getVal, Snapshot.updStr,
      Snapshot.updBool, Snapshot.updInt, Snapshot.updNat, do_rx, h]

/-- Claim C4, amended, witness: on a fresh instance (both drivers absent)
with a stale rx_done, the three behaviours at concrete inputs. -/
theorem claim_C4_amended_witness :
    (apply_snapshot [("tx_fire", JVal.jbool true)] envT stRxStale).1.regs.tx_done
      = false ∧
    (apply_snapshot [("rx_fire", JVal.jbool true)] envT stRxStale).1.regs.rx_done
      = false ∧
    (apply_snapshot [("tick", JVal.jbool true)] envT stRxStale).1.regs.rx_done
      = stRxStale.regs.rx_done :=
  ⟨(claim_C4_amended_done_reset stRxStale envT).1 (by decide),
   (claim_C4_amended_done_reset stRxStale envT).2.1 (by decide),
   (claim_C4_amended_done_reset stRxStale envT).2.2 (by decide)⟩

/-!
## Claim C9 — only private-endpoint datagrams update the reply sender
-/

/-- Claim C9: processing any bus-endpoint datagram (well-formed or not)
leaves has_sender and last_sender unchanged; reply_json before any
private-channel datagram has been remembered returns false and sends
nothing; and a read dispatch with a remembered sender replies exactly to
that sender. -/
theorem claim_C9_bus_sender_isolation (sender : Nat)
    (payload : Option Snapshot) (env : Env) (st : NetState)
    (doc : List (String × JVal)) :
    ((poll_socket false (some (sender, payload)) env st).1.has_sender
        = st.has_sender ∧
     (poll_socket false (some (sender, payload)) env st).1.last_sender
        = st.last_sender) ∧
    (st.has_sender = false → reply_json doc env st = (false, [])) ∧
    (st.has_sender = true →
      (apply_snapshot [("read", JVal.jbool true)] env st).2 =
        [Output.reply st.last_sender (serialize_registers st)]) := by
  refine ⟨⟨?_, ?_⟩, ?_, ?_⟩
  · cases payload with
    | none => rfl
    | some j =>
      simp [poll_socket, on_message, apply_snapshot_has_sender]
  · cases payload with
    | none => rfl
    | some j =>
      simp [poll_socket, on_message, apply_snapshot_last_sender]
  · intro h
    simp [reply_json, h]
  · intro h
    simp [apply_snapshot, lifecycle_phase, filter_phase, actions_phase,
      config_phase, Snapshot.valueBool, Snapshot.getVal, Snapshot.updStr,
      Snapshot.updBool, Snapshot.updInt, Snapshot.updNat, reply_json,
      serialize_registers, h]

/-- Claim C9, witness: a malformed and a well-formed bus datagram leave the
remembered sender of a state that knows sender 42 unchanged; reply on a
fresh instance returns false and sends nothing; a read dispatch replies to
sender 42. -/
theorem claim_C9_bus_sender_witness :
    ((poll_socket false (some (9, some [("promisc", JVal.jbool false)]))
        envT stSender).1.has_sender = stSender.has_sender ∧
     (poll_socket false (some (9, some [("promisc", JVal.jbool false)]))
        envT stSender).1.last_sender = stSender.last_sender) ∧
    reply_json (serialize_registers stBase) envT stBase = (false, []) ∧
    (apply_snapshot [("read", JVal.jbool true)] envT stSender).2 =
      [Output.reply stSender.last_sender (serialize_registers stSender)] :=
  ⟨(claim_C9_bus_sender_isolation 9 (some [("promisc", JVal.jbool false)])
      envT stSender (serialize_registers stSender)).1,
   (claim_C9_bus_sender_isolation 9 none envT stBase
      (serialize_registers stBase)).2.1 (by decide),
   (claim_C9_bus_sender_isolation 9 none envT stSender
      (serialize_registers stSender)).2.2 (by decide)⟩

/-!
## Claim C7 — invalid hardware address aborts the transmit
-/

/-- Claim C7: a tx_fire dispatch with the transmit driver live and all three
framing layers enabled, whose source or destination hardware address fails
parse_mac, aborts with no partial send: tx_done ends false, last_error holds
the (non-empty) MAC validation message, and nothing at all is emitted — no
frame, no belief, no reply. -/
theorem claim_C7_tx_invalid_mac (st : NetState) (env : Env) (h : Nat)
    (hl : st.libnet = some h)
    (he : st.regs.eth_enabled = true) (hi : st.regs.ip4_enabled = true)
    (hc : st.regs.icmp4_enabled = true)
    (hm : parse_mac st.regs.eth_src_mac = none ∨
          parse_mac st.regs.eth_dst_mac = none) :
    (apply_snapshot [("tx_fire", JVal.jbool true)] env st).1.regs.tx_done
      = false ∧
    (apply_snapshot [("tx_fire", JVal.jbool true)] env st).1.regs.last_error
      = "invalid MAC address format" ∧
    (apply_snapshot [("tx_fire", JVal.jbool true)] env st).2 = [] := by
  rcases hm with hs | hd
  · refine ⟨?_, ?_, ?_⟩ <;>
      simp [apply_snapshot, lifecycle_phase, filter_phase, actions_phase,
        config_phase, Snapshot.valueBool, Snapshot.getVal, Snapshot.updStr,
        Snapshot.updBool, Snapshot.updInt, Snapshot.updNat, do_tx, set_error,
        hl, he, hi, hc, hs]
  · cases hs : parse_mac st.regs.eth_src_mac <;>
      refine ⟨?_, ?_, ?_⟩ <;>
        simp [apply_snapshot, lifecycle_phase, filter_phase, actions_phase,
          config_phase, Snapshot.valueBool, Snapshot.getVal, Snapshot.updStr,
          Snapshot.updBool, Snapshot.updInt, Snapshot.updNat, do_tx, set_error,
          hl, he, hi, hc, hs, hd]

/-- Claim C7, witness: the hardware address zz:zz:zz:zz:zz:zz does not parse
as six colon-separated hex octets, and on a transmit-ready state carrying it
as destination address the tx_fire dispatch leaves tx_done false, sets the
non-empty MAC validation message, and transmits nothing. -/
theorem claim_C7_tx_invalid_mac_witness :
    parse_mac "zz:zz:zz:zz:zz:zz" = none ∧
    (apply_snapshot [("tx_fire", JVal.jbool true)] envT stBadMac).1.regs.tx_done
      = false ∧
    (apply_snapshot [("tx_fire", JVal.jbool true)] envT stBadMac).1.regs.last_error
      = "invalid MAC address format" ∧
    (apply_snapshot [("tx_fire", JVal.jbool true)] envT stBadMac).2 = [] :=
  ⟨by decide,
   (claim_C7_tx_invalid_mac stBadMac envT 1 (by decide) (by decide) (by decide)
      (by decide) (Or.inr (by decide))).1,
   (claim_C7_tx_invalid_mac stBadMac envT 1 (by decide) (by decide) (by decide)
      (by decide) (Or.inr (by decide))).2.1,
   (claim_C7_tx_invalid_mac stBadMac envT 1 (by decide) (by decide) (by decide)
      (by decide) (Or.inr (by decide))).2.2⟩

/-!
## Claim C5 — belief monotonicity across two successful transmits
-/

theorem strStarts_NET_tx : strStarts "NET." "NET.tx_done" = true := by decide

/-- Claim C5: two consecutive successful tx_fire dispatches on one instance
that has never committed NET.tx_done produce exactly one NET.tx_done = true
belief envelope in total — the second commit is silently rejected as a
duplicate — while the second dispatch still ends with tx_done = true. -/
theorem claim_C5_belief_monotonic (st : NetState) (env : Env) (h : Nat)
    (ms md : List Nat)
    (hl : st.libnet = some h)
    (he : st.regs.eth_enabled = true) (hi : st.regs.ip4_enabled = true)
    (hc : st.regs.icmp4_enabled = true)
    (hs : parse_mac st.regs.eth_src_mac = some ms)
    (hd : parse_mac st.regs.eth_dst_mac = some md)
    (h0 : env.name2addr_src ≠ 0) (h1 : env.name2addr_dst ≠ 0)
    (hw : env.libnet_write_ok = true)
    (hp : st.committed.any
      (fun b => b.subject == "NET.tx_done" && b.polarity == true) = false) :
    (apply_snapshot [("tx_fire", JVal.jbool true)] env
      (apply_snapshot [("tx_fire", JVal.jbool true)] env st).1).1.regs.tx_done
      = true ∧
    sinkCount ((apply_snapshot [("tx_fire", JVal.jbool true)] env st).2 ++
      (apply_snapshot [("tx_fire", JVal.jbool true)] env
        (apply_snapshot [("tx_fire", JVal.jbool true)] env st).1).2)
      "NET.tx_done" true = 1 := by
  have hp2 : ¬ ∃ x ∈ st.committed,
      x.subject = "NET.tx_done" ∧ x.polarity = true := by
    simpa using hp
  constructor <;>
    simp [apply_snapshot, lifecycle_phase, filter_phase, actions_phase,
      config_phase, Snapshot.valueBool, Snapshot.getVal, Snapshot.updStr,
      Snapshot.updBool, Snapshot.updInt, Snapshot.updNat, do_tx, commit,
      set_error, sinkCount, strStarts_NET_tx, List.mem_append,
      hl, he, hi, hc, hs, hd, h0, h1, hw, hp2]

/-- Claim C5, witness: firing tx twice on the concrete transmit-ready state
under envT ends with tx_done = true and exactly one NET.tx_done sink
envelope across both dispatches. -/
theorem claim_C5_belief_monotonic_witness :
    (apply_snapshot [("tx_fire", JVal.jbool true)] envT
      (apply_snapshot [("tx_fire", JVal.jbool true)] envT stTxReady).1).1.regs.tx_done
      = true ∧
    sinkCount ((apply_snapshot [("tx_fire", JVal.jbool true)] envT stTxReady).2 ++
      (apply_snapshot [("tx_fire", JVal.jbool true)] envT
        (apply_snapshot [("tx_fire", JVal.jbool true)] envT stTxReady).1).2)
      "NET.tx_done" true = 1 :=
  claim_C5_belief_monotonic stTxReady envT 1
    [170, 187, 204, 221, 238, 255] [17, 34, 51, 68, 85, 102]
    (by decide) (by decide) (by decide) (by decide) (by decide) (by decide)
    (by decide) (by decide) (by decide) (by decide)
